import Mathlib

/-!
Shallow embedding of the SecureFabric public SDK sources
(`sdk/rust/src/lib.rs`, `sdk/js/src/lib.rs`, and the conformance test
template `sdk/tests/conformance_template_rust.rs`), together with the
theorems settling the specification claims about them.

Bytes are modelled as `List Nat` with values reduced `% 256` wherever the
source works on machine bytes.  Fallible Rust calls return `Except String`
(anyhow error messages abbreviated to their context strings); calls that can
panic return `RustResult`, which has an explicit `panicked` constructor.
-/

namespace SecureFabric

/-- A byte string (`Vec<u8>` / `&[u8]` in the source). -/
abbrev Bytes := List Nat

/-- Outcome of a Rust call that can panic: `ok` and `err` mirror
`Result::Ok` / `Result::Err`; `panicked` models an `unwrap` failure. -/
inductive RustResult (α : Type) where
  | ok : α → RustResult α
  | err : String → RustResult α
  | panicked : RustResult α
deriving Repr, DecidableEq

/-! ## AEAD core and the `sdk/js` wasm wrappers

`sdk/js/src/lib.rs` delegates to `securefabric_core::aead`, which is code of
this repository that is not under `src/`.  The core cipher is therefore
modelled from the spec. -/

/-- Modelled from the spec: `securefabric_core::aead` is not under `src/`.
ChaCha20-Poly1305 keystream, modelled as a deterministic byte stream derived
from key and nonce (spec 4.3: ciphertext length equals plaintext length). -/
def keystream (key nonce : Bytes) (len : Nat) : Bytes :=
  (List.range len).map fun i =>
    (key ++ nonce).foldl (fun acc b => (acc * 131 + b + 1) % 256) (i % 256)

/-- Modelled from the spec: `securefabric_core::aead` is not under `src/`.
Poly1305 authentication tag, modelled as a fixed 16-byte digest of key,
nonce, AAD and ciphertext (spec 4.3: tag is a fixed 16-byte suffix). -/
def polyTag (key nonce aad ct : Bytes) : Bytes :=
  (List.range 16).map fun i =>
    (key ++ nonce ++ aad ++ ct).foldl (fun acc b => (acc * 31 + b + 7) % 256)
      ((i * 11 + 3) % 256)

/-- Modelled from the spec: `securefabric_core::aead::encrypt_chacha_with_aad`
is not under `src/`.  Produces `ciphertext ‖ tag` (spec 4.3). -/
def encrypt_chacha_with_aad (key nonce aad pt : Bytes) : Bytes :=
  let ct := List.zipWith (fun a b => a ^^^ b) pt (keystream key nonce pt.length)
  ct ++ polyTag key nonce aad ct

/-- Modelled from the spec: `securefabric_core::aead::decrypt_chacha_with_aad`
is not under `src/`.  Splits off the 16-byte tag, verifies it before
releasing any plaintext, and inverts the keystream (spec 4.3). -/
def decrypt_chacha_with_aad (key nonce aad c : Bytes) : Except String Bytes :=
  if c.length < 16 then .error "ciphertext too short"
  else
    let ct := c.take (c.length - 16)
    let tag := c.drop (c.length - 16)
    if tag == polyTag key nonce aad ct then
      .ok (List.zipWith (fun a b => a ^^^ b) ct (keystream key nonce ct.length))
    else .error "aead authentication failed"

namespace js

/-- `encrypt` from `sdk/js/src/lib.rs` (wasm build): length-checks the key
and nonce, then calls `encrypt_chacha_with_aad`. -/
def encrypt (key nonce aad plaintext : Bytes) : Except String Bytes :=
  if key.length ≠ 32 then .error "key must be32 bytes"
  else if nonce.length ≠ 12 then .error "nonce must be12 bytes"
  else .ok (encrypt_chacha_with_aad key nonce aad plaintext)

/-- `decrypt` from `sdk/js/src/lib.rs` (wasm build): length-checks the key
and nonce, then calls `decrypt_chacha_with_aad`. -/
def decrypt (key nonce aad ciphertext : Bytes) : Except String Bytes :=
  if key.length ≠ 32 then .error "key must be32 bytes"
  else if nonce.length ≠ 12 then .error "nonce must be12 bytes"
  else decrypt_chacha_with_aad key nonce aad ciphertext

end js

/-! ### Helper lemmas for the AEAD round trip -/

theorem take_length_append (l₁ l₂ : Bytes) : (l₁ ++ l₂).take l₁.length = l₁ := by
  induction l₁ with
  | nil => simp
  | cons a t ih => simp [ih]

theorem drop_length_append (l₁ l₂ : Bytes) : (l₁ ++ l₂).drop l₁.length = l₂ := by
  induction l₁ with
  | nil => simp
  | cons a t ih => simp [ih]

theorem zipWith_xor_cancel :
    ∀ (pt ks : Bytes), pt.length = ks.length →
      List.zipWith (fun a b => a ^^^ b)
        (List.zipWith (fun a b => a ^^^ b) pt ks) ks = pt := by
  intro pt
  induction pt with
  | nil => intro ks _; simp
  | cons a t ih =>
    intro ks h
    cases ks with
    | nil => simp at h
    | cons b ks' =>
      simp only [List.zipWith]
      have hx : a ^^^ b ^^^ b = a := by
        rw [Nat.xor_assoc, Nat.xor_self, Nat.xor_zero]
      simp only [List.length_cons, Nat.succ.injEq] at h
      rw [hx, ih ks' h]

theorem keystream_length (key nonce : Bytes) (len : Nat) :
    (keystream key nonce len).length = len := by
  simp [keystream]

theorem encrypt_chacha_length (key nonce aad pt : Bytes) :
    (encrypt_chacha_with_aad key nonce aad pt).length = pt.length + 16 := by
  simp [encrypt_chacha_with_aad, polyTag, keystream]

theorem chacha_roundtrip (key nonce aad pt : Bytes) :
    decrypt_chacha_with_aad key nonce aad (encrypt_chacha_with_aad key nonce aad pt)
      = .ok pt := by
  unfold decrypt_chacha_with_aad
  have hct : (List.zipWith (fun a b => a ^^^ b) pt (keystream key nonce pt.length)).length
      = pt.length := by
    simp [List.length_zipWith, keystream_length]
  have hlen : (encrypt_chacha_with_aad key nonce aad pt).length = pt.length + 16 :=
    encrypt_chacha_length key nonce aad pt
  rw [hlen]
  have h16 : ¬ (pt.length + 16 < 16) := by omega
  rw [if_neg h16]
  unfold encrypt_chacha_with_aad
  have hsub : pt.length + 16 - 16 = pt.length := by omega
  set ct := List.zipWith (fun a b => a ^^^ b) pt (keystream key nonce pt.length) with hctdef
  have htake : (ct ++ polyTag key nonce aad ct).take (pt.length + 16 - 16) = ct := by
    rw [hsub, ← hct, take_length_append]
  have hdrop : (ct ++ polyTag key nonce aad ct).drop (pt.length + 16 - 16)
      = polyTag key nonce aad ct := by
    rw [hsub, ← hct, drop_length_append]
  rw [htake, hdrop]
  simp only [beq_self_eq_true, if_pos]
  rw [hct, hctdef]
  rw [zipWith_xor_cancel pt (keystream key nonce pt.length)
    (by rw [keystream_length])]

/-- C6: decrypting the output of encrypt with the same 32-byte key, 12-byte
nonce and AAD returns exactly the original plaintext. -/
theorem c6_roundtrip (key nonce aad pt : Bytes)
    (hk : key.length = 32) (hn : nonce.length = 12) :
    ∃ c, js.encrypt key nonce aad pt = .ok c ∧
      js.decrypt key nonce aad c = .ok pt := by
  refine ⟨encrypt_chacha_with_aad key nonce aad pt, ?_, ?_⟩
  · simp [js.encrypt, hk, hn]
  · simp [js.decrypt, hk, hn, chacha_roundtrip]

/-- Witness for C6 at a concrete key, nonce, AAD and plaintext. -/
theorem c6_witness :
    ∃ c, js.encrypt (List.replicate 32 0) (List.replicate 12 0) [4, 5] [1, 2, 3]
        = .ok c ∧
      js.decrypt (List.replicate 32 0) (List.replicate 12 0) [4, 5] c
        = .ok [1, 2, 3] :=
  c6_roundtrip (List.replicate 32 0) (List.replicate 12 0) [4, 5] [1, 2, 3]
    (by decide) (by decide)

/-- C7 counterexample: a 24-byte nonce with a valid 32-byte key is rejected
by `js.encrypt` with an invalid-parameters error; XChaCha20-Poly1305 is never
performed. -/
theorem c7_counterexample :
    js.encrypt (List.replicate 32 0) (List.replicate 24 0) [] [1]
      = .error "nonce must be12 bytes" := by rfl

/-- C7 (amended): the wasm encrypt accepts only 12-byte nonces, performing
ChaCha20-Poly1305; a 24-byte nonce is rejected with an invalid-parameters
error. -/
theorem c7_amended (key nonce aad pt : Bytes) (hk : key.length = 32) :
    (nonce.length = 12 →
      js.encrypt key nonce aad pt = .ok (encrypt_chacha_with_aad key nonce aad pt)) ∧
    (nonce.length = 24 →
      js.encrypt key nonce aad pt = .error "nonce must be12 bytes") := by
  constructor
  · intro hn
    simp [js.encrypt, hk, hn]
  · intro hn
    have h12 : nonce.length ≠ 12 := by omega
    simp [js.encrypt, hk, h12]

/-- Witness for C7 (amended) at concrete 12- and 24-byte nonces. -/
theorem c7_witness :
    js.encrypt (List.replicate 32 1) (List.replicate 12 2) [] [9]
        = .ok (encrypt_chacha_with_aad (List.replicate 32 1)
          (List.replicate 12 2) [] [9]) ∧
      js.encrypt (List.replicate 32 1) (List.replicate 24 2) [] [9]
        = .error "nonce must be12 bytes" :=
  ⟨(c7_amended (List.replicate 32 1) (List.replicate 12 2) [] [9]
      (by decide)).1 (by decide),
   (c7_amended (List.replicate 32 1) (List.replicate 24 2) [] [9]
      (by decide)).2 (by decide)⟩

/-- C8: a key that is not exactly 32 bytes, or a nonce of invalid length,
makes both encrypt and decrypt fail with an invalid-parameters error; no
ciphertext or plaintext is produced. -/
theorem c8_invalid_params (key nonce aad data : Bytes)
    (h : key.length ≠ 32 ∨ nonce.length ≠ 12) :
    (∃ e, js.encrypt key nonce aad data = .error e) ∧
    (∃ e, js.decrypt key nonce aad data = .error e) := by
  by_cases hk : key.length = 32
  · have hn : nonce.length ≠ 12 := by tauto
    exact ⟨⟨"nonce must be12 bytes", by simp [js.encrypt, hk, hn]⟩,
           ⟨"nonce must be12 bytes", by simp [js.decrypt, hk, hn]⟩⟩
  · exact ⟨⟨"key must be32 bytes", by simp [js.encrypt, hk]⟩,
           ⟨"key must be32 bytes", by simp [js.decrypt, hk]⟩⟩

/-- Witness for C8 at a concrete short key. -/
theorem c8_witness :
    (∃ e, js.encrypt [1] (List.replicate 12 0) [] [7] = .error e) ∧
    (∃ e, js.decrypt [1] (List.replicate 12 0) [] [7] = .error e) :=
  c8_invalid_params [1] (List.replicate 12 0) [] [7] (Or.inl (by decide))

/-! ## Ed25519 model and the `crypto` module of `sdk/rust/src/lib.rs`

The SDK wraps the external `ed25519_dalek` crate, whose code is not part of
this repository.  Its interface is modelled from the spec's contract
(spec 4.2): deterministic signing producing a 64-byte signature, an
injective map from signing key to verifying key, and strict verification
that accepts exactly the signature produced by the matching signing key over
the same message. -/

/-- Modelled from the spec: `ed25519_dalek` signing, a deterministic 64-byte
digest of the signing key and message. -/
def dalekSign (sk msg : Bytes) : Bytes :=
  (List.range 64).map fun i =>
    (sk ++ msg).foldl (fun acc b => (acc * 31 + b + i + 1) % 256) (i * 7 % 256)

/-- Modelled from the spec: `SigningKey::verifying_key`, an injective byte
map of the 32-byte seed. -/
def verifyingKeyOf (sk : Bytes) : Bytes :=
  sk.map fun b => (b * 7 + 13) % 256

/-- Inverse of `verifyingKeyOf` on bytes, used by the verification model to
identify the matching signing key (183 is the inverse of 7 modulo 256). -/
def signingKeyOfVk (vk : Bytes) : Bytes :=
  vk.map fun b => (b + 243) * 183 % 256

/-- Modelled from the spec: `VerifyingKey::verify_strict` — accepts exactly
the signature `dalekSign` of the matching signing key over the message. -/
def verifyStrict (vk msg sig : Bytes) : Bool :=
  sig == dalekSign (signingKeyOfVk vk) msg

/-- `Signature::from_slice`: succeeds exactly on 64-byte inputs. -/
def signatureFromSlice (bs : Bytes) : Option Bytes :=
  if bs.length = 64 then some bs else none

namespace crypto

/-- `crypto::sign` from `sdk/rust/src/lib.rs`: `signing_key.sign(message).to_bytes()`. -/
def sign (signing_key message : Bytes) : Bytes :=
  dalekSign signing_key message

/-- `crypto::verify` from `sdk/rust/src/lib.rs`: parses the signature, then
runs strict verification, mapping failure to an error. -/
def verify (verifying_key message signature : Bytes) : Except String Unit :=
  match signatureFromSlice signature with
  | none => .error "signature error"
  | some sig =>
    if verifyStrict verifying_key message sig then .ok ()
    else .error "verification failed"

end crypto

theorem dalekSign_length (sk msg : Bytes) : (dalekSign sk msg).length = 64 := by
  simp [dalekSign]

set_option maxRecDepth 2048 in
theorem byte_mod_roundtrip :
    ∀ b : Nat, b < 256 → ((b * 7 + 13) % 256 + 243) * 183 % 256 = b := by decide

theorem signingKeyOfVk_verifyingKeyOf (sk : Bytes) (h : ∀ b ∈ sk, b < 256) :
    signingKeyOfVk (verifyingKeyOf sk) = sk := by
  unfold signingKeyOfVk verifyingKeyOf
  rw [List.map_map]
  have : ∀ b ∈ sk, (fun b => (b + 243) * 183 % 256) ((fun b => (b * 7 + 13) % 256) b) = b := by
    intro b hb
    exact byte_mod_roundtrip b (h b hb)
  calc sk.map ((fun b => (b + 243) * 183 % 256) ∘ fun b => (b * 7 + 13) % 256)
      = sk.map id := List.map_congr_left this
    _ = sk := List.map_id sk

/-- C5: verifying, with the verifying key derived from a signing key, the
signature produced by `crypto::sign` over the same message succeeds. -/
theorem c5_sign_verify (sk msg : Bytes) (h : ∀ b ∈ sk, b < 256) :
    crypto.verify (verifyingKeyOf sk) msg (crypto.sign sk msg) = .ok () := by
  have hlen := dalekSign_length sk msg
  have hv : verifyStrict (verifyingKeyOf sk) msg (dalekSign sk msg) = true := by
    unfold verifyStrict
    rw [signingKeyOfVk_verifyingKeyOf sk h]
    exact beq_self_eq_true _
  simp [crypto.verify, crypto.sign, signatureFromSlice, hlen, hv]

/-- Witness for C5 at a concrete signing key and message. -/
theorem c5_witness :
    crypto.verify (verifyingKeyOf (List.replicate 32 9)) [1, 2, 3]
      (crypto.sign (List.replicate 32 9) [1, 2, 3]) = .ok () :=
  c5_sign_verify (List.replicate 32 9) [1, 2, 3] (by decide)

/-! ## Envelope, Publisher and Subscriber from `sdk/rust/src/lib.rs`

The protobuf schema `sdk/proto/securefabric.proto` is not under `src/`;
fields are taken from the code's uses of `pb::Envelope` (`sig`, `topic`,
`to`, `payload` in `Subscriber::verify`; `msg_id`, `seq` in the example),
with the remaining fields (`pubkey`, `nonce`, `aad`, `key_version`)
modelled from the spec's envelope table (spec section 3). -/

structure Envelope where
  pubkey : Bytes
  sig : Bytes
  nonce : Bytes
  aad : Bytes
  payload : Bytes
  seq : Nat
  msg_id : String
  key_version : Nat
  topic : Bytes
  to_ : Bytes
deriving Repr, DecidableEq

/-- `pb::SendReq`, as constructed by `Publisher::send`. -/
structure SendReq where
  topic : Bytes
  to_ : Bytes
  payload : Bytes
deriving Repr, DecidableEq

/-- `pb::SubscribeReq`, as constructed by `Subscriber::subscribe`. -/
structure SubscribeReq where
  topic : Bytes
deriving Repr, DecidableEq

/-- `Publisher` state: the gRPC channel is irrelevant to the claims and
omitted; `signing_key` and `bearer` are kept as in the source. -/
structure Publisher where
  signing_key : Option Bytes
  bearer : Option Bytes
deriving Repr, DecidableEq

/-- `Subscriber` state, as in the source (channel omitted). -/
structure Subscriber where
  verifying_key : Option Bytes
  bearer : Option Bytes
deriving Repr, DecidableEq

/-- Validity of one byte of an HTTP header value, modelled from
`http::HeaderValue` (visible ASCII and beyond, tab allowed, DEL and other
control bytes rejected), which `tonic` metadata parsing uses. -/
def isValidHeaderByte (b : Nat) : Bool :=
  b == 9 || (decide (32 ≤ b) && b != 127)

/-- `"Bearer "` prefix bytes. -/
def bearerPrefixBytes : Bytes := [66, 101, 97, 114, 101, 114, 32]

/-- The bytes of `format "Bearer token"` built by the SDK. -/
def bearerHeader (token : Bytes) : Bytes := bearerPrefixBytes ++ token

/-- `MetadataValue` parsing of a header value: succeeds exactly when every
byte is valid in an HTTP header value. -/
def parseHeaderValue (v : Bytes) : Option Bytes :=
  if v.all isValidHeaderByte then some v else none

/-- `Publisher::send`: builds the `SendReq` from topic, destination and
payload, attaches the bearer header when configured — panicking via
`unwrap` when the header value does not parse — and transmits.  The model
returns the request and metadata it transmits. -/
def Publisher.send (p : Publisher) (topic to_ payload : Bytes) :
    RustResult (SendReq × Option Bytes) :=
  let req : SendReq := ⟨topic, to_, payload⟩
  match p.bearer with
  | none => .ok (req, none)
  | some t =>
    match parseHeaderValue (bearerHeader t) with
    | none => .panicked
    | some h => .ok (req, some h)

/-- `Subscriber::subscribe`: builds the `SubscribeReq`, attaches the bearer
header when configured (panicking via `unwrap` when it does not parse). -/
def Subscriber.subscribe (s : Subscriber) (topic : Bytes) :
    RustResult (SubscribeReq × Option Bytes) :=
  let req : SubscribeReq := ⟨topic⟩
  match s.bearer with
  | none => .ok (req, none)
  | some t =>
    match parseHeaderValue (bearerHeader t) with
    | none => .panicked
    | some h => .ok (req, some h)

/-- `auth::bearer_interceptor`: the returned closure inserts the bearer
header (panicking via `unwrap` when it does not parse) and returns the
request. -/
def bearerInterceptor (token : Bytes) : RustResult Bytes :=
  match parseHeaderValue (bearerHeader token) with
  | none => .panicked
  | some h => .ok h

/-- The byte string `Subscriber::verify` actually checks the signature
over: `topic ‖ 0 ‖ to ‖ 0 ‖ payload`. -/
def codeSignedMessage (env : Envelope) : Bytes :=
  env.topic ++ [0] ++ env.to_ ++ [0] ++ env.payload

/-- `Subscriber::verify`: empty signature reports `Ok(false)`; a missing
verifying key is an error; the signature is parsed (64-byte check) and
strictly verified over `codeSignedMessage`. -/
def Subscriber.verify (s : Subscriber) (env : Envelope) : Except String Bool :=
  if env.sig.isEmpty then .ok false
  else
    match s.verifying_key with
    | none => .error "No verifying key configured"
    | some vk =>
      match signatureFromSlice env.sig with
      | none => .error "parse signature"
      | some sig => .ok (verifyStrict vk (codeSignedMessage env) sig)

/-- An all-empty envelope used as the base of concrete test inputs. -/
def envBase : Envelope :=
  ⟨[], [], [], [], [], 0, "", 0, [], []⟩

theorem verify_some_of_len64 (vk : Bytes) (env : Envelope)
    (h : env.sig.length = 64) :
    Subscriber.verify ⟨some vk, none⟩ env
      = .ok (verifyStrict vk (codeSignedMessage env) env.sig) := by
  have hne : env.sig ≠ [] := by
    intro he
    rw [he] at h
    simp at h
  have hE : env.sig.isEmpty = false := by
    cases hs : env.sig with
    | nil => exact absurd hs hne
    | cons a t => rfl
  simp [Subscriber.verify, hE, signatureFromSlice, h]

/-- C9: an empty `sig` reports `Ok(false)` irrespective of the configured
key; a non-empty `sig` with no configured verifying key is an error, never
`Ok(false)`. -/
theorem c9_verify_branches (s : Subscriber) (env env' : Envelope)
    (h1 : env.sig = []) :
    s.verify env = .ok false ∧
    (env'.sig ≠ [] → s.verifying_key = none →
      s.verify env' = .error "No verifying key configured") := by
  constructor
  · simp [Subscriber.verify, h1]
  · intro h2 h3
    have hE : env'.sig.isEmpty = false := by
      cases hs : env'.sig with
      | nil => exact absurd hs h2
      | cons a t => rfl
    simp [Subscriber.verify, hE, h3]

/-- Witness for C9: a key-less subscriber on an empty-sig envelope and on a
one-byte-sig envelope. -/
theorem c9_witness :
    Subscriber.verify ⟨none, none⟩ envBase = .ok false ∧
    Subscriber.verify ⟨none, none⟩ { envBase with sig := [1] }
      = .error "No verifying key configured" :=
  ⟨(c9_verify_branches ⟨none, none⟩ envBase { envBase with sig := [1] } rfl).1,
   (c9_verify_branches ⟨none, none⟩ envBase { envBase with sig := [1] } rfl).2
      (by decide) rfl⟩

/-- C3 counterexample: a structurally invalid one-byte signature makes
`Subscriber::verify` return an error, not a `false` verification result. -/
theorem c3_counterexample :
    Subscriber.verify ⟨some (List.replicate 32 1), none⟩ { envBase with sig := [0] }
      = .error "parse signature" := by rfl

/-- C3 (amended): an empty signature is reported as verification failure
`Ok(false)`; a non-empty signature whose length is not 64 produces an error
result (never a panic), both in `Subscriber::verify` and in
`crypto::verify`. -/
theorem c3_amended (vk msg sig : Bytes) (env : Envelope) :
    (env.sig = [] → Subscriber.verify ⟨some vk, none⟩ env = .ok false) ∧
    (env.sig ≠ [] → env.sig.length ≠ 64 →
      Subscriber.verify ⟨some vk, none⟩ env = .error "parse signature") ∧
    (sig.length ≠ 64 → crypto.verify vk msg sig = .error "signature error") := by
  refine ⟨?_, ?_, ?_⟩
  · intro h1
    simp [Subscriber.verify, h1]
  · intro h2 h3
    have hE : env.sig.isEmpty = false := by
      cases hs : env.sig with
      | nil => exact absurd hs h2
      | cons a t => rfl
    simp [Subscriber.verify, hE, signatureFromSlice, h3]
  · intro h4
    simp [crypto.verify, signatureFromSlice, h4]

/-- Witness for C3 (amended) at concrete envelopes and signatures. -/
theorem c3_witness :
    Subscriber.verify ⟨some (List.replicate 32 1), none⟩ envBase = .ok false ∧
    Subscriber.verify ⟨some (List.replicate 32 1), none⟩
        { envBase with sig := [0, 1] } = .error "parse signature" ∧
    crypto.verify (List.replicate 32 1) [5] [0, 1, 2] = .error "signature error" :=
  ⟨(c3_amended (List.replicate 32 1) [5] [0, 1, 2] envBase).1 rfl,
   (c3_amended (List.replicate 32 1) [5] [0, 1, 2]
      { envBase with sig := [0, 1] }).2.1 (by decide) (by decide),
   (c3_amended (List.replicate 32 1) [5] [0, 1, 2] envBase).2.2 (by decide)⟩

set_option maxRecDepth 40000 in
/-- C2 counterexample: an envelope whose `sig` is a valid signature over
`aad ‖ payload` is still rejected by `Subscriber::verify`, because the code
checks the signature over `topic ‖ 0 ‖ to ‖ 0 ‖ payload` instead. -/
theorem c2_counterexample :
    verifyStrict (verifyingKeyOf (List.replicate 32 0)) (([5] : Bytes) ++ [7])
        (dalekSign (List.replicate 32 0) (([5] : Bytes) ++ [7])) = true ∧
    Subscriber.verify ⟨some (verifyingKeyOf (List.replicate 32 0)), none⟩
        { envBase with
          aad := [5], payload := [7], topic := [1], to_ := [2],
          sig := dalekSign (List.replicate 32 0) (([5] : Bytes) ++ [7]) }
      = .ok false := by
  exact ⟨rfl, rfl⟩

/-- C2 (amended): for a 64-byte signature, `Subscriber::verify` succeeds
exactly when the signature strictly verifies over
`topic ‖ 0 ‖ to ‖ 0 ‖ payload` under the configured key; the envelope's
`aad`, `pubkey`, `nonce`, `seq`, `msg_id` and `key_version` fields do not
influence the result. -/
theorem c2_amended (vk : Bytes) (env env' : Envelope)
    (h : env.sig.length = 64) :
    Subscriber.verify ⟨some vk, none⟩ env
      = .ok (verifyStrict vk (codeSignedMessage env) env.sig) ∧
    (env'.topic = env.topic → env'.to_ = env.to_ → env'.payload = env.payload →
      env'.sig = env.sig →
      Subscriber.verify ⟨some vk, none⟩ env' = Subscriber.verify ⟨some vk, none⟩ env) := by
  constructor
  · exact verify_some_of_len64 vk env h
  · intro h1 h2 h3 h4
    have h' : env'.sig.length = 64 := by rw [h4]; exact h
    have hmsg : codeSignedMessage env' = codeSignedMessage env := by
      simp [codeSignedMessage, h1, h2, h3]
    rw [verify_some_of_len64 vk env h, verify_some_of_len64 vk env' h', hmsg, h4]

/-- Witness for C2 (amended): two envelopes differing only in `aad` and
`seq` verify identically. -/
theorem c2_witness :
    Subscriber.verify ⟨some [1], none⟩ { envBase with sig := List.replicate 64 3 }
      = .ok (verifyStrict [1]
          (codeSignedMessage { envBase with sig := List.replicate 64 3 })
          (List.replicate 64 3)) ∧
    Subscriber.verify ⟨some [1], none⟩
        { envBase with sig := List.replicate 64 3, aad := [9], seq := 5 }
      = Subscriber.verify ⟨some [1], none⟩ { envBase with sig := List.replicate 64 3 } :=
  ⟨(c2_amended [1] { envBase with sig := List.replicate 64 3 }
      { envBase with sig := List.replicate 64 3, aad := [9], seq := 5 }
      (by decide)).1,
   (c2_amended [1] { envBase with sig := List.replicate 64 3 }
      { envBase with sig := List.replicate 64 3, aad := [9], seq := 5 }
      (by decide)).2 rfl rfl rfl rfl⟩

/-- C1: `Publisher::send` transmits only `SendReq topic to payload` — no
`sig`, `seq`, `nonce` or `msg_id` — and its behaviour is independent of the
configured signing key; the counter the claim requires does not exist. -/
theorem c1_code_bug :
    Publisher.send ⟨some (List.replicate 32 7), none⟩ [1] [2] [3]
      = .ok (⟨[1], [2], [3]⟩, none) ∧
    ∀ (sk sk' : Option Bytes) (t u pl : Bytes),
      Publisher.send ⟨sk, none⟩ t u pl = Publisher.send ⟨sk', none⟩ t u pl :=
  ⟨rfl, fun _ _ _ _ _ => rfl⟩

/-- C10: a bearer token containing a byte invalid in an HTTP header value
(for example a newline) makes `Publisher::send`, `Subscriber::subscribe` and
the `auth::bearer_interceptor` closure panic on the `unwrap` of metadata
parsing. -/
theorem c10_bearer_panics (token t u pl tp : Bytes) (sk vk : Option Bytes)
    (h : ∃ b ∈ token, isValidHeaderByte b = false) :
    Publisher.send ⟨sk, some token⟩ t u pl = .panicked ∧
    Subscriber.subscribe ⟨vk, some token⟩ tp = .panicked ∧
    bearerInterceptor token = .panicked := by
  obtain ⟨b, hb, hf⟩ := h
  have hmem : b ∈ bearerHeader token := by
    simp [bearerHeader, List.mem_append]
    exact Or.inr hb
  have hall : (bearerHeader token).all isValidHeaderByte = false := by
    cases hx : (bearerHeader token).all isValidHeaderByte
    · rfl
    · rw [List.all_eq_true] at hx
      have := hx b hmem
      rw [hf] at this
      exact absurd this Bool.false_ne_true
  have hparse : parseHeaderValue (bearerHeader token) = none := by
    simp [parseHeaderValue, hall]
  exact ⟨by simp [Publisher.send, hparse], by simp [Subscriber.subscribe, hparse],
    by simp [bearerInterceptor, hparse]⟩

/-- Witness for C10: a token consisting of a newline byte. -/
theorem c10_witness :
    Publisher.send ⟨none, some [10]⟩ [] [] [] = .panicked ∧
    Subscriber.subscribe ⟨none, some [10]⟩ [] = .panicked ∧
    bearerInterceptor [10] = .panicked :=
  c10_bearer_panics [10] [] [] [] [] none none (by decide)

/-! ## Replay filter

No replay-filter implementation is under `src/`; the conformance test
template only references one in commented-out pseudocode
(`test_replay_protection_conformance`). -/

/-- Modelled from the spec: the sliding-window replay filter of spec 4.6
(`highest_seen`, a window bitset of `window_size` bits); the implementation
is not under `src/`. -/
structure ReplayFilter where
  highest_seen : Nat
  window : Nat
  window_size : Nat
deriving Repr, DecidableEq

/-- Initial filter state: nothing seen, empty window (spec 4.6). -/
def ReplayFilter.init (w : Nat) : ReplayFilter :=
  ⟨0, 0, w⟩

/-- Modelled from the spec: one transition of the replay filter on a
received `seq` (spec 4.6); bit `d` of `window` stands for
`highest_seen - d`. -/
def ReplayFilter.check (f : ReplayFilter) (seq : Nat) : Bool × ReplayFilter :=
  if seq = 0 then (false, f)
  else if f.highest_seen < seq then
    let shift := seq - f.highest_seen
    (true, { f with highest_seen := seq,
                    window := (f.window <<< shift ||| 1) % 2 ^ f.window_size })
  else
    let d := f.highest_seen - seq
    if d < f.window_size then
      if f.window.testBit d then (false, f)
      else (true, { f with window := f.window ||| 1 <<< d })
    else (false, f)

/-- Runs a freshly constructed filter over a scripted list of sequence
numbers, collecting the accept/reject outputs. -/
def runReplayFilter (w : Nat) (seqs : List Nat) : List Bool :=
  (seqs.foldl
    (fun (acc : List Bool × ReplayFilter) s =>
      let r := acc.2.check s
      (acc.1 ++ [r.1], r.2))
    ([], ReplayFilter.init w)).1

/-- C4: with window size 8, the scripted sequence `[1,2,3,2,10,10,9]`
produces exactly the accept/reject outputs
`[true,true,true,false,true,false,true]`. -/
theorem c4_replay_vector :
    runReplayFilter 8 [1, 2, 3, 2, 10, 10, 9]
      = [true, true, true, false, true, false, true] := by decide

end SecureFabric
